import Mathlib

/-!
Verification development for the device-topology bootstrap of evcc
(`cmd/setup.go` together with the descriptor-store part of package
`config`).  The Go source is embedded shallowly: pure functions become
Lean functions, database state and the class registries are passed
explicitly, goroutine fan-out is modelled by recording which
construction tasks have been spawned, and the one possible runtime
panic (currency parsing) is a distinguished error constructor.
External collaborators (driver factories, the currency table, gorm's
storage engine) are parameters of the definitions.
-/

set_option maxHeartbeats 1000000
set_option linter.unusedVariables false

/-! ## Descriptor store (package config) -/

/-- Device class enumeration (`config.Class`). -/
inductive DeviceClass where
  | Meter
  | Charger
  | Vehicle
  deriving DecidableEq, Repr

/-- One attribute row of the store (`config.ConfigDetail`). -/
structure ConfigDetail where
  configID : Nat
  key : String
  value : String
  deriving DecidableEq, Repr

/-- A descriptor row of the store without its preloaded details
(the scalar columns of `config.Config`). -/
structure ConfigRow where
  id : Nat
  cls : DeviceClass
  typ : String
  deriving DecidableEq, Repr

/-- A descriptor with its attribute rows preloaded (`config.Config`
as returned by the store queries). -/
structure Config where
  id : Nat
  cls : DeviceClass
  typ : String
  details : List ConfigDetail
  deriving DecidableEq, Repr

/-- The relational state behind package `config`: descriptor rows,
attribute rows and the auto-increment counter of the primary key. -/
structure DB where
  nextId : Nat
  rows : List ConfigRow
  details : List ConfigDetail
  deriving DecidableEq, Repr

/-- Errors surfaced by the storage engine to the store operations. -/
inductive GormError where
  | recordNotFound
  | emptySlice
  deriving DecidableEq, Repr

/-- Attribute maps as they appear in descriptors (Go
`map[string]any`, always flattened to string values). -/
abbrev Other := List (String × String)

/-- Insertion into a Go map: an existing key is overwritten in place,
a new key is appended. -/
def insertKV (m : Other) (k v : String) : Other :=
  if m.any (fun p => p.1 = k) then m.map (fun p => if p.1 = k then (k, v) else p)
  else m ++ [(k, v)]

/-- `Config.detailsAsMap`: fold the detail rows into a map, a later
row with the same key overwriting an earlier one. -/
def Config.detailsAsMap (d : Config) : Other :=
  d.details.foldl (fun m det => insertKV m det.key det.value) []

/-- `config.NameForID`: the name synthesized for a store-persisted
descriptor. -/
def NameForID (id : Nat) : String :=
  "db:" ++ toString id

/-- `config.Named`: a descriptor with a display name. -/
structure Named where
  name : String
  typ : String
  other : Other
  deriving DecidableEq, Repr

/-- `config.Typed`: a descriptor without a name. -/
structure Typed where
  typ : String
  other : Other
  deriving DecidableEq, Repr

/-- `Config.Named`: named projection of a stored descriptor. -/
def Config.toNamed (d : Config) : Named :=
  { name := NameForID d.id, typ := d.typ, other := d.detailsAsMap }

/-- `Config.Typed`: typed projection of a stored descriptor. -/
def Config.toTyped (d : Config) : Typed :=
  { typ := d.typ, other := d.detailsAsMap }

/-- `Config.mapAsDetails`: turn an attribute map into detail rows for
the given descriptor id. -/
def mapAsDetails (id : Nat) (config : Other) : List ConfigDetail :=
  config.map (fun kv => { configID := id, key := kv.1, value := kv.2 })

/-- Preloading: attach to a descriptor row all attribute rows bearing
its id (gorm `Preload "Details"`). -/
def preload (db : DB) (r : ConfigRow) : Config :=
  { id := r.id, cls := r.cls, typ := r.typ,
    details := db.details.filter (fun d => d.configID = r.id) }

/-- The primary-key order used by the store queries. -/
def rowLE (a b : ConfigRow) : Prop := a.id ≤ b.id

instance : DecidableRel rowLE := fun a b => Nat.decLe a.id b.id

/-- `config.ConfigurationsByClass`: descriptors of one class, ordered
by id, details preloaded, descriptors without details removed. -/
def ConfigurationsByClass (db : DB) (cls : DeviceClass) : List Config :=
  let devices := ((db.rows.filter (fun r => r.cls = cls)).insertionSort rowLE).map (preload db)
  devices.filter (fun d => !d.details.isEmpty)

/-- `config.ConfigByID`: first descriptor (in primary-key order) with
the given id, details preloaded; `recordNotFound` if there is none. -/
def ConfigByID (db : DB) (id : Nat) : Except GormError Config :=
  match (db.rows.insertionSort rowLE).find? (fun r => r.id = id) with
  | some r => .ok (preload db r)
  | none => .error .recordNotFound

/-- `config.AddConfig`: create the descriptor row and its attribute
rows in one transaction; on failure the transaction rolls back and the
state is unchanged.  The fresh primary key is returned in either case. -/
def AddConfig (db : DB) (cls : DeviceClass) (typ : String) (config : Other) :
    (Nat × Except GormError Unit) × DB :=
  let id := db.nextId
  let details := mapAsDetails id config
  if details.isEmpty then ((id, .error .emptySlice), db)
  else
    ((id, .ok ()),
     { nextId := id + 1,
       rows := db.rows ++ [{ id := id, cls := cls, typ := typ }],
       details := db.details ++ details })

/-- `config.UpdateConfig`: look the descriptor up by class and id,
delete all its attribute rows, write the new attribute set, all in one
transaction. -/
def UpdateConfig (db : DB) (cls : DeviceClass) (id : Nat) (config : Other) :
    Except GormError Unit × DB :=
  match db.rows.find? (fun r => r.cls = cls && r.id = id) with
  | none => (.error .recordNotFound, db)
  | some _ =>
    let details := mapAsDetails id config
    if details.isEmpty then (.error .emptySlice, db)
    else
      (.ok (),
       { db with details := db.details.filter (fun d => d.configID ≠ id) ++ details })

/-- `config.DeleteConfig`: delete the attribute rows bearing the id,
then the descriptor row with that primary key.  The storage engine
reports no error when nothing matches. -/
def DeleteConfig (db : DB) (cls : DeviceClass) (id : Nat) : Except GormError Unit × DB :=
  (.ok (),
   { db with
     details := db.details.filter (fun d => d.configID ≠ id),
     rows := db.rows.filter (fun r => r.id ≠ id) })

/-! ## Device handles and the descriptor merger (cmd/setup.go) -/

/-- Two-phase device handle (`config.Device`): phase 1 holds the
descriptor, phase 2 additionally the bound driver instance. -/
structure Device (T : Type) where
  config : Named
  inst : Option T
  deriving DecidableEq, Repr

/-- `config.NewStaticDevice`: wrap a statically declared descriptor. -/
def NewStaticDevice {T : Type} (c : Named) : Device T :=
  { config := c, inst := none }

/-- `config.NewConfigurableDevice`: wrap a store-persisted descriptor;
its display name is synthesized from the store id. -/
def NewConfigurableDevice {T : Type} (c : Config) : Device T :=
  { config := c.toNamed, inst := none }

/-- `devices`: the merged handle collection of one class, statically
declared descriptors first, store-persisted ones after them. -/
def devices {T : Type} (static : List Named) (configurable : List Config) : List (Device T) :=
  static.map NewStaticDevice ++ configurable.map NewConfigurableDevice

/-- Modelled from the spec: the class-registry insert behind
`config.AddMeter` / `AddCharger` / `AddVehicle` (package `config`,
not part of the sample).  Registration appends in call order and a
duplicate name is a registration error. -/
def registryAdd {T : Type} (reg : List (Device T)) (dev : Device T) :
    Except String (List (Device T)) :=
  if reg.any (fun d => d.config.name = dev.config.name) then
    .error ("duplicated device name: " ++ dev.config.name)
  else .ok (reg ++ [dev])

/-- Register a list of bound handles one by one, stopping at the
first registration error; the registry keeps earlier insertions. -/
def registerAll {T : Type} :
    List (Device T) → List (Device T) → Except String Unit × List (Device T)
  | [], reg => (.ok (), reg)
  | dev :: rest, reg =>
    match registryAdd reg dev with
    | .error e => (.error e, reg)
    | .ok reg' => registerAll rest reg'

/-! ## Concurrent class builders -/

/-- `configureMeters` body: a strictly sequential loop that checks the
name, constructs, connects and registers each meter in turn.  The
registry is threaded so that its contents at the moment of an error
are visible. -/
def configureMetersLoop {M : Type} (newMeter : String → Other → Except String M) :
    List (Device M) → Nat → List (Device M) → Except String Unit × List (Device M)
  | [], _, reg => (.ok (), reg)
  | dev :: rest, i, reg =>
    let cc := dev.config
    if cc.name = "" then
      (.error ("cannot create meter " ++ toString (i + 1) ++ ": missing name"), reg)
    else
      match newMeter cc.typ cc.other with
      | .error e => (.error ("cannot create meter '" ++ cc.name ++ "': " ++ e), reg)
      | .ok inst =>
        match registryAdd reg { dev with inst := some inst } with
        | .error e => (.error e, reg)
        | .ok reg' => configureMetersLoop newMeter rest (i + 1) reg'

/-- `configureMeters`: merge static and store descriptors, then run
the sequential build-and-register loop. -/
def configureMeters {M : Type} (newMeter : String → Other → Except String M)
    (db : DB) (static : List Named) (reg : List (Device M)) :
    Except String Unit × List (Device M) :=
  configureMetersLoop newMeter (devices static (ConfigurationsByClass db .Meter)) 0 reg

/-- The fan-out loop shared by `configureChargers` and
`configureVehicles`: walk the merged collection, abort on the first
blank name, otherwise record the 0-based index whose construction
task is handed to the errgroup. -/
def spawnLoop {T : Type} (clsName : String) :
    List (Device T) → Nat → List Nat → Except String Unit × List Nat
  | [], _, spawned => (.ok (), spawned)
  | dev :: rest, i, spawned =>
    if dev.config.name = "" then
      (.error ("cannot create " ++ clsName ++ " " ++ toString (i + 1) ++ ": missing name"),
       spawned)
    else spawnLoop clsName rest (i + 1) (spawned ++ [i])

/-- The join of the charger construction tasks: every task constructs
its device and connects the instance to its handle; the reported
error of the group is the first failing task in index order. -/
def chargerJoin {C : Type} (newCharger : String → Other → Except String C) :
    List (Device C) → Except String (List (Device C))
  | [] => .ok []
  | dev :: rest =>
    match newCharger dev.config.typ dev.config.other with
    | .error e => .error ("cannot create charger '" ++ dev.config.name ++ "': " ++ e)
    | .ok inst =>
      match chargerJoin newCharger rest with
      | .error e => .error e
      | .ok l => .ok ({ dev with inst := some inst } :: l)

/-- `configureChargers`: merge, fan out (recording spawned task
indices), join, then register all bound handles.  Registration only
starts after every construction task has finished. -/
def configureChargers {C : Type} (newCharger : String → Other → Except String C)
    (db : DB) (static : List Named) (reg : List (Device C)) :
    Except String Unit × List Nat × List (Device C) :=
  let res : List (Device C) := devices static (ConfigurationsByClass db .Charger)
  match spawnLoop "charger" res 0 [] with
  | (.error e, spawned) => (.error e, spawned, reg)
  | (.ok _, spawned) =>
    match chargerJoin newCharger res with
    | .error e => (.error e, spawned, reg)
    | .ok connected =>
      match registerAll connected reg with
      | (r, reg') => (r, spawned, reg')

/-! ## Vehicles: degraded stand-in and title normalization -/

/-- Construction failures of the vehicle driver resolver, separated
the way `errors.As` with `*util.ConfigError` separates them. -/
inductive VehicleErr where
  | configError (msg : String)
  | otherError (msg : String)
  deriving DecidableEq, Repr

/-- The optional authentication capability a constructed vehicle may
expose (`api.AuthProvider`); the tag identifies its handlers. -/
structure AuthCap where
  tag : Nat
  deriving DecidableEq, Repr

/-- A constructed vehicle instance as far as the bootstrap observes
it: a mutable display title, whether its vehicle-specific operations
report an error (and which), and the optional auth capability. -/
structure VehicleInst where
  title : String
  opError : Option String
  auth : Option AuthCap
  deriving DecidableEq, Repr

/-- Go `strings.Title` word-separator test, restricted to the ASCII
attribute names the bootstrap handles. -/
def isSeparator (c : Char) : Bool :=
  !(c.isAlpha || c.isDigit || c = '_')

/-- The rune-by-rune map of Go `strings.Title`, carrying the previous
rune. -/
def titleMap : Char → List Char → List Char
  | _, [] => []
  | prev, c :: rest => (if isSeparator prev then c.toUpper else c) :: titleMap c rest

/-- Go `strings.Title`: upper-case the first letter of every word. -/
def stringsTitle (s : String) : String :=
  String.mk (titleMap ' ' s.data)

/-- Modelled from the spec: `wrapper.New` (package `vehicle/wrapper`,
not part of the sample) builds the degraded stand-in that implements
the vehicle capability surface but reports the fabrication error, and
an empty title, when exercised. -/
def wrapperNew (name : String) (other : Other) (err : String) : VehicleInst :=
  { title := "", opError := some err, auth := none }

/-- The builder's title normalization: a bound instance without a
display title gets the title-cased descriptor name. -/
def ensureTitle (name : String) (inst : VehicleInst) : VehicleInst :=
  if inst.title = "" then { inst with title := stringsTitle name } else inst

/-- One vehicle construction task: a `ConfigError` from the resolver
is a hard error; any other resolver error is logged and replaced by
the degraded stand-in; in both non-fatal cases the title is
normalized. -/
def vehicleTask (newVehicle : String → Other → Except VehicleErr VehicleInst)
    (cc : Named) : Except String VehicleInst :=
  match newVehicle cc.typ cc.other with
  | .error (.configError m) => .error ("cannot create vehicle '" ++ cc.name ++ "': " ++ m)
  | .error (.otherError m) => .ok (ensureTitle cc.name (wrapperNew cc.name cc.other m))
  | .ok inst => .ok (ensureTitle cc.name inst)

/-- The join of the vehicle construction tasks, first hard error in
index order. -/
def vehicleJoin (newVehicle : String → Other → Except VehicleErr VehicleInst) :
    List (Device VehicleInst) → Except String (List (Device VehicleInst))
  | [] => .ok []
  | dev :: rest =>
    match vehicleTask newVehicle dev.config with
    | .error e => .error e
    | .ok inst =>
      match vehicleJoin newVehicle rest with
      | .error e => .error e
      | .ok l => .ok ({ dev with inst := some inst } :: l)

/-- `configureVehicles`: merge, fan out, join (stand-ins replacing
non-config failures), then register all bound handles. -/
def configureVehicles (newVehicle : String → Other → Except VehicleErr VehicleInst)
    (db : DB) (static : List Named) (reg : List (Device VehicleInst)) :
    Except String Unit × List Nat × List (Device VehicleInst) :=
  let res : List (Device VehicleInst) := devices static (ConfigurationsByClass db .Vehicle)
  match spawnLoop "vehicle" res 0 [] with
  | (.error e, spawned) => (.error e, spawned, reg)
  | (.ok _, spawned) =>
    match vehicleJoin newVehicle res with
    | .error e => (.error e, spawned, reg)
    | .ok connected =>
      match registerAll connected reg with
      | (r, reg') => (r, spawned, reg')

/-! ## Tariffs -/

/-- `config.Typed` tariff slot configuration. -/
structure tariffConfig where
  currency : String
  grid : Typed
  feedIn : Typed
  co2 : Typed
  planner : Typed
  deriving DecidableEq, Repr

/-- The tariff type a constructed tariff reports (`api.TariffType`);
only the carbon-intensity value is inspected by the bootstrap. -/
inductive TariffType where
  | co2
  | price
  | solar
  deriving DecidableEq, Repr

/-- A constructed tariff instance as far as the bootstrap observes
it: its reported tariff type. -/
structure Tariff where
  tariffType : TariffType
  deriving DecidableEq, Repr

/-- The tariff bundle (`tariff.Tariffs`): a currency unit and four
independently optional tariff handles. -/
structure Tariffs where
  currency : String
  grid : Option Tariff
  feedIn : Option Tariff
  co2 : Option Tariff
  planner : Option Tariff
  deriving DecidableEq, Repr

/-- Modelled from the spec: `tariff.NewTariffs` (not part of the
sample) packs the currency and the four optional handles into the
bundle. -/
def NewTariffs (currency : String) (grid feedin co2 planner : Option Tariff) : Tariffs :=
  { currency := currency, grid := grid, feedIn := feedin, co2 := co2, planner := planner }

/-- A bootstrap error: either an ordinary error value returned up the
stage chain, or a runtime panic that crashes the process. -/
inductive BootErr where
  | fail (msg : String)
  | panicked (msg : String)
  deriving DecidableEq, Repr

/-- The migration warning emitted for a planner slot that resolves to
a carbon-intensity tariff. -/
def plannerCo2Warning : String :=
  "tariff configuration changed, use co2 instead of planner for co2 tariff"

/-- `configureTariffs`: parse the currency (`MustParseISO` panics on
an unparseable non-empty code), then resolve the four slots
independently, each construction error degrading its slot to absent;
a planner slot resolving to a carbon-intensity tariff emits a
migration warning.  The Go error return is always nil, so the result
carries only the bundle and the warnings. -/
def configureTariffs (parseISO : String → Option String)
    (newTariff : String → Other → Except String Tariff)
    (conf : tariffConfig) : Except BootErr (Tariffs × List String) :=
  match (if conf.currency = "" then some "EUR" else parseISO conf.currency) with
  | none => .error (.panicked ("currency: tag is not a recognized currency: " ++ conf.currency))
  | some currencyCode =>
    let grid : Option Tariff :=
      if conf.grid.typ = "" then none
      else match newTariff conf.grid.typ conf.grid.other with
        | .ok t => some t
        | .error _ => none
    let feedin : Option Tariff :=
      if conf.feedIn.typ = "" then none
      else match newTariff conf.feedIn.typ conf.feedIn.other with
        | .ok t => some t
        | .error _ => none
    let co2 : Option Tariff :=
      if conf.co2.typ = "" then none
      else match newTariff conf.co2.typ conf.co2.other with
        | .ok t => some t
        | .error _ => none
    let plannerRes : Option (Except String Tariff) :=
      if conf.planner.typ = "" then none
      else some (newTariff conf.planner.typ conf.planner.other)
    let planner : Option Tariff :=
      match plannerRes with
      | some (.ok t) => some t
      | _ => none
    let warnings : List String :=
      match plannerRes with
      | some (.ok t) => if t.tariffType = .co2 then [plannerCo2Warning] else []
      | _ => []
    .ok (NewTariffs currencyCode grid feedin co2 planner, warnings)

/-! ## Loadpoints, site and the topology sequencer -/

/-- One loadpoint configuration entry as decoded from the settings
tree: an opaque attribute map. -/
abbrev LpConf := Other

/-- `configureLoadpoints` body: build each loadpoint in order, the
first construction error aborting the loop. -/
def loadpointsLoop (newLoadpoint : LpConf → Except String Unit) :
    List LpConf → Except String (List Unit)
  | [] => .ok []
  | lpc :: rest =>
    match newLoadpoint lpc with
    | .error e => .error ("failed configuring loadpoint: " ++ e)
    | .ok lp =>
      match loadpointsLoop newLoadpoint rest with
      | .error e => .error e
      | .ok l => .ok (lp :: l)

/-- `configureLoadpoints`: the loadpoint list is read from the
settings tree (not from the typed configuration struct); a missing or
empty list is the hard error "missing loadpoints". -/
def configureLoadpoints (newLoadpoint : LpConf → Except String Unit)
    (viperLoadpoints : Option (List LpConf)) : Except String (List Unit) :=
  match viperLoadpoints with
  | none => .error "missing loadpoints"
  | some lps =>
    if lps.isEmpty then .error "missing loadpoints"
    else loadpointsLoop newLoadpoint lps

/-- `configureSite`: delegate to the site factory and wrap its error
with stage context. -/
def configureSite (newSite : Other → List Unit → List VehicleInst → Tariffs → Except String Unit)
    (conf : Other) (loadpoints : List Unit) (vehicles : List VehicleInst)
    (tariffs : Tariffs) : Except BootErr Unit :=
  match newSite conf loadpoints vehicles tariffs with
  | .error e => .error (.fail ("failed configuring site: " ++ e))
  | .ok s => .ok s

/-- `config.Instances`: the bound driver instances of a registry, in
registry order. -/
def Instances {T : Type} (reg : List (Device T)) : List T :=
  reg.filterMap (fun d => d.inst)

/-- The stages of the topology sequencer. -/
inductive Stage where
  | Meters
  | Chargers
  | Vehicles
  | Loadpoints
  | Tariffs
  | Site
  deriving DecidableEq, Repr

/-- The subset of the typed global configuration the sequencer
consumes.  The `loadpoints` field is carried but, as in the source,
`configureLoadpoints` reads the settings tree instead. -/
structure globalConfig (M C : Type) where
  meters : List Named
  chargers : List Named
  vehicles : List Named
  tariffs : tariffConfig
  site : Other
  loadpoints : List LpConf

/-- The three class registries. -/
structure Registries (M C : Type) where
  meters : List (Device M)
  chargers : List (Device C)
  vehicles : List (Device VehicleInst)

/-- `configureDevices`: meters, then chargers, then vehicles, each
stage aborting the chain; the trace records which stages started. -/
def configureDevices {M C : Type} (newMeter : String → Other → Except String M)
    (newCharger : String → Other → Except String C)
    (newVehicle : String → Other → Except VehicleErr VehicleInst)
    (db : DB) (conf : globalConfig M C) :
    Except BootErr Unit × Registries M C × List Stage :=
  match configureMeters newMeter db conf.meters [] with
  | (.error e, regM) => (.error (.fail e), ⟨regM, [], []⟩, [.Meters])
  | (.ok _, regM) =>
    match configureChargers newCharger db conf.chargers [] with
    | (.error e, _, regC) => (.error (.fail e), ⟨regM, regC, []⟩, [.Meters, .Chargers])
    | (.ok _, _, regC) =>
      match configureVehicles newVehicle db conf.vehicles [] with
      | (.error e, _, regV) =>
        (.error (.fail e), ⟨regM, regC, regV⟩, [.Meters, .Chargers, .Vehicles])
      | (.ok _, _, regV) => (.ok (), ⟨regM, regC, regV⟩, [.Meters, .Chargers, .Vehicles])

/-- `configureSiteAndLoadpoints`: the full sequencer.  Devices, then
loadpoints (error wrapped with stage context), then tariffs, then the
site.  The trace records, in order, every stage that started. -/
def configureSiteAndLoadpoints {M C : Type} (newMeter : String → Other → Except String M)
    (newCharger : String → Other → Except String C)
    (newVehicle : String → Other → Except VehicleErr VehicleInst)
    (newLoadpoint : LpConf → Except String Unit)
    (parseISO : String → Option String)
    (newTariff : String → Other → Except String Tariff)
    (newSite : Other → List Unit → List VehicleInst → Tariffs → Except String Unit)
    (db : DB) (conf : globalConfig M C) (viperLoadpoints : Option (List LpConf)) :
    Except BootErr Unit × List Stage :=
  match configureDevices newMeter newCharger newVehicle db conf with
  | (.error e, _, tr) => (.error e, tr)
  | (.ok _, regs, tr) =>
    let tr := tr ++ [Stage.Loadpoints]
    match configureLoadpoints newLoadpoint viperLoadpoints with
    | .error e => (.error (.fail ("failed configuring loadpoints: " ++ e)), tr)
    | .ok lps =>
      let tr := tr ++ [Stage.Tariffs]
      match configureTariffs parseISO newTariff conf.tariffs with
      | .error e => (.error e, tr)
      | .ok (tariffs, _) =>
        let tr := tr ++ [Stage.Site]
        match configureSite newSite conf.site lps (Instances regs.vehicles) tariffs with
        | .error e => (.error e, tr)
        | .ok _ => (.ok (), tr)

/-! ## Capability router (configureAuth) -/

/-- The network configuration consumed for URI synthesis. -/
structure networkConfig where
  schema : String
  host : String
  port : Nat
  deriving DecidableEq, Repr

/-- `net.JoinHostPort`: colon-join, bracketing an IPv6 host (one
whose name contains a colon). -/
def JoinHostPort (host port : String) : String :=
  if host.data.contains ':' then "[" ++ host ++ "]:" ++ port else host ++ ":" ++ port

/-- `networkConfig.HostPort`: drop the default port of the schema. -/
def networkConfig.HostPort (c : networkConfig) : String :=
  if c.schema = "http" ∧ c.port = 80 ∨ c.schema = "https" ∧ c.port = 443 then c.host
  else JoinHostPort c.host (toString c.port)

/-- `networkConfig.URI`. -/
def networkConfig.URI (c : networkConfig) : String :=
  c.schema ++ "://" ++ c.HostPort

/-- The observable output of the capability router: the registered
routes (path, handler kind, provider tag), the callback wiring calls
(provider tag, base URI, callback URI), and the published lookup
(route path, vehicle title). -/
structure AuthResult where
  routes : List (String × String × Nat)
  callbacks : List (Nat × String × String)
  lookup : List (String × String)
  deriving DecidableEq, Repr

/-- The scan loop of `configureAuth`: vehicles in registry order, a
1-based id counter incremented only for instances exposing the auth
capability; each capable instance contributes one lookup entry, one
callback wiring and one login/logout route pair. -/
def configureAuthLoop (baseURI baseAuthURI : String) :
    List VehicleInst → Nat → AuthResult → AuthResult
  | [], _, acc => acc
  | v :: rest, id, acc =>
    match v.auth with
    | none => configureAuthLoop baseURI baseAuthURI rest id acc
    | some p =>
      let id' := id + 1
      let basePath := "vehicles/" ++ toString id'
      let callbackURI := baseAuthURI ++ "/" ++ basePath ++ "/callback"
      let acc' : AuthResult :=
        { routes := acc.routes ++
            [("/" ++ basePath ++ "/login", "login", p.tag),
             ("/" ++ basePath ++ "/logout", "logout", p.tag)],
          callbacks := acc.callbacks ++ [(p.tag, baseURI, callbackURI)],
          lookup := acc.lookup ++ [("oauth/" ++ basePath, v.title)] }
      configureAuthLoop baseURI baseAuthURI rest id' acc'

/-- `configureAuth`: derive the base URIs from the network
configuration and scan the bound vehicle instances. -/
def configureAuth (conf : networkConfig) (vehicles : List VehicleInst) : AuthResult :=
  let baseURI := conf.URI
  let baseAuthURI := baseURI ++ "/oauth"
  configureAuthLoop baseURI baseAuthURI vehicles 0 ⟨[], [], []⟩

/-! ## Shared instances and helper lemmas -/

deriving instance DecidableEq for Except

instance : IsTotal ConfigRow rowLE := ⟨fun a b => Nat.le_total a.id b.id⟩

instance : IsTrans ConfigRow rowLE := ⟨fun _ _ _ => Nat.le_trans⟩

theorem find?_unique {α : Type} (p : α → Bool) :
    ∀ (l : List α) (x : α), x ∈ l → p x = true → (∀ y ∈ l, p y = true → y = x) →
      l.find? p = some x := by
  intro l
  induction l with
  | nil => intro x hx; cases hx
  | cons a t ih =>
    intro x hx hpx huniq
    by_cases hpa : p a = true
    · have hax : a = x := huniq a (List.mem_cons_self a t) hpa
      subst hax
      simp [List.find?, hpa]
    · have hxt : x ∈ t := by
        rcases List.mem_cons.mp hx with h | h
        · exact absurd (h ▸ hpx) hpa
        · exact h
      have := ih x hxt hpx (fun y hy hpy => huniq y (List.mem_cons_of_mem a hy) hpy)
      simp [List.find?, hpa, this]

/-! ## C5: listing by class -/

/-- C5: `ConfigurationsByClass` is ordered by store id ascending and
contains exactly the stored descriptors of the class whose preloaded
attribute set is non-empty; zero-attribute descriptors are only
dropped from the result (the operation is a pure query on the store
state and returns no modified state). -/
theorem C5_list_by_class (db : DB) (cls : DeviceClass) :
    (ConfigurationsByClass db cls).Pairwise (fun a b => a.id ≤ b.id) ∧
    ∀ c, c ∈ ConfigurationsByClass db cls ↔
      ∃ r ∈ db.rows, r.cls = cls ∧ c = preload db r ∧ c.details ≠ [] := by
  constructor
  · have hsorted : List.Sorted rowLE
        ((db.rows.filter (fun r => r.cls = cls)).insertionSort rowLE) :=
      List.sorted_insertionSort rowLE _
    have hmap : (((db.rows.filter (fun r => r.cls = cls)).insertionSort rowLE).map
        (preload db)).Pairwise (fun a b => a.id ≤ b.id) := by
      refine List.Pairwise.map (preload db) ?_ hsorted
      intro a b hab
      exact hab
    exact List.Pairwise.sublist (List.filter_sublist _) hmap
  · intro c
    unfold ConfigurationsByClass
    simp only [List.mem_filter, List.mem_map,
      (List.perm_insertionSort rowLE (db.rows.filter (fun r => r.cls = cls))).mem_iff]
    constructor
    · rintro ⟨⟨r, ⟨hrmem, hrcls⟩, rfl⟩, hne⟩
      refine ⟨r, hrmem, by simpa using hrcls, rfl, ?_⟩
      simpa [List.isEmpty_iff] using hne
    · rintro ⟨r, hrmem, hrcls, rfl, hne⟩
      exact ⟨⟨r, ⟨hrmem, by simpa using hrcls⟩, rfl⟩,
        by simpa [List.isEmpty_iff] using hne⟩

/-! ## C7: unknown-id behavior of get, update, delete -/

/-- C7: counterexample — deleting an id that identifies no stored
descriptor does not produce a not-found error: on the empty store,
`DeleteConfig` for id 5 returns success, contradicting the claim that
all three of `get`, `update`, `delete` fail with a not-found error. -/
theorem C7_counterexample :
    (DeleteConfig { nextId := 1, rows := [], details := [] } .Meter 5).1 = .ok () ∧
    (DeleteConfig { nextId := 1, rows := [], details := [] } .Meter 5).1 ≠
      .error .recordNotFound := by
  exact ⟨rfl, by decide⟩

/-- C7 amended: for an id that identifies no stored descriptor, `get`
and `update` fail with the not-found error (`update` leaving the store
unchanged), while `delete` succeeds without an error and removes no
descriptor row. -/
theorem C7_unknown_id (db : DB) (cls : DeviceClass) (id : Nat) (cfg : Other)
    (h : ∀ r ∈ db.rows, r.id ≠ id) :
    ConfigByID db id = .error .recordNotFound ∧
    (UpdateConfig db cls id cfg).1 = .error .recordNotFound ∧
    (UpdateConfig db cls id cfg).2 = db ∧
    (DeleteConfig db cls id).1 = .ok () ∧
    (DeleteConfig db cls id).2.rows = db.rows := by
  have hfind : (db.rows.insertionSort rowLE).find? (fun r => r.id = id) = none := by
    rw [List.find?_eq_none]
    intro x hx
    have hxm : x ∈ db.rows := (List.perm_insertionSort rowLE db.rows).subset hx
    simpa using h x hxm
  have hfind2 : db.rows.find? (fun r => r.cls = cls && r.id = id) = none := by
    rw [List.find?_eq_none]
    intro x hx
    simp [h x hx]
  refine ⟨?_, ?_, ?_, rfl, ?_⟩
  · unfold ConfigByID
    rw [hfind]
  · unfold UpdateConfig
    rw [hfind2]
  · unfold UpdateConfig
    rw [hfind2]
  · show db.rows.filter (fun r => r.id ≠ id) = db.rows
    rw [List.filter_eq_self]
    intro r hr
    simpa using h r hr

/-- Witness for C7 amended at the empty store and id 5. -/
theorem C7_witness :
    ConfigByID { nextId := 1, rows := [], details := [] } 5 = .error .recordNotFound ∧
    (UpdateConfig { nextId := 1, rows := [], details := [] } .Meter 5 [("k", "v")]).1 =
      .error .recordNotFound ∧
    (UpdateConfig { nextId := 1, rows := [], details := [] } .Meter 5 [("k", "v")]).2 =
      { nextId := 1, rows := [], details := [] } ∧
    (DeleteConfig { nextId := 1, rows := [], details := [] } .Meter 5).1 = .ok () ∧
    (DeleteConfig { nextId := 1, rows := [], details := [] } .Meter 5).2.rows = [] :=
  C7_unknown_id { nextId := 1, rows := [], details := [] } .Meter 5 [("k", "v")]
    (by intro r hr; cases hr)

/-! ## C6 and C10: store round trip and update frame -/

theorem foldl_insertKV_fresh (id : Nat) :
    ∀ (cfg : Other) (m : Other),
      (∀ q ∈ m, ∀ kv ∈ cfg, q.1 ≠ kv.1) → (cfg.map Prod.fst).Nodup →
      List.foldl (fun m det => insertKV m det.key det.value) m (mapAsDetails id cfg) =
        m ++ cfg := by
  intro cfg
  induction cfg with
  | nil => intro m _ _; simp [mapAsDetails]
  | cons kv rest ih =>
    intro m hfresh hnodup
    simp only [mapAsDetails, List.map_cons, List.foldl_cons]
    have hstep : insertKV m kv.1 kv.2 = m ++ [kv] := by
      unfold insertKV
      have hnone : m.any (fun p => p.1 = kv.1) = false := by
        simp only [List.any_eq_false]
        intro q hq
        simpa using hfresh q hq kv (List.mem_cons_self _ _)
      simp [hnone]
    have hfresh' : ∀ q ∈ m ++ [kv], ∀ kv' ∈ rest, q.1 ≠ kv'.1 := by
      intro q hq kv' hkv'
      rcases List.mem_append.mp hq with hq | hq
      · exact hfresh q hq kv' (List.mem_cons_of_mem _ hkv')
      · have : q = kv := List.mem_singleton.mp hq
        subst this
        have hkeys := hnodup
        simp only [List.map_cons, List.nodup_cons] at hkeys
        intro hcontra
        exact hkeys.1 (hcontra ▸ List.mem_map_of_mem Prod.fst hkv')
    have hnodup' : (rest.map Prod.fst).Nodup := by
      simp only [List.map_cons, List.nodup_cons] at hnodup
      exact hnodup.2
    show List.foldl (fun m det => insertKV m det.key det.value)
        (insertKV m kv.1 kv.2) (mapAsDetails id rest) = m ++ kv :: rest
    rw [hstep, ih (m ++ [kv]) hfresh' hnodup', List.append_assoc]
    rfl

theorem filter_mapAsDetails_ne (id : Nat) (cfg : Other) :
    (mapAsDetails id cfg).filter (fun d => d.configID ≠ id) = [] := by
  induction cfg with
  | nil => rfl
  | cons kv rest ih => simpa [mapAsDetails, List.filter_cons] using ih

theorem filter_mapAsDetails_eq (id : Nat) (cfg : Other) :
    (mapAsDetails id cfg).filter (fun d => d.configID = id) = mapAsDetails id cfg := by
  induction cfg with
  | nil => rfl
  | cons kv rest ih => simpa [mapAsDetails, List.filter_cons] using ih

/-- C6: adding a descriptor and fetching it by the returned id yields
a descriptor with the added type, and its `Named` and `Typed`
projections reproduce the added string-to-string attribute map
exactly, `Named` additionally carrying the name synthesized from the
store id.  The store state is well-formed (ids below the
auto-increment counter) and the added map is a Go map: non-empty here,
with pairwise-distinct keys. -/
theorem C6_add_get_roundtrip (db : DB) (cls : DeviceClass) (typ : String) (cfg : Other)
    (hwfr : ∀ r ∈ db.rows, r.id < db.nextId)
    (hwfd : ∀ d ∈ db.details, d.configID < db.nextId)
    (hne : cfg ≠ []) (hnodup : (cfg.map Prod.fst).Nodup) :
    (AddConfig db cls typ cfg).1.2 = .ok () ∧
    ∃ c, ConfigByID (AddConfig db cls typ cfg).2 (AddConfig db cls typ cfg).1.1 = .ok c ∧
      c.typ = typ ∧ c.cls = cls ∧
      c.toNamed = { name := NameForID (AddConfig db cls typ cfg).1.1, typ := typ,
                    other := cfg } ∧
      c.toTyped = { typ := typ, other := cfg } := by
  have hdet : (mapAsDetails db.nextId cfg).isEmpty = false := by
    cases cfg with
    | nil => exact absurd rfl hne
    | cons kv rest => rfl
  have hadd : AddConfig db cls typ cfg =
      ((db.nextId, .ok ()),
       { nextId := db.nextId + 1,
         rows := db.rows ++ [{ id := db.nextId, cls := cls, typ := typ }],
         details := db.details ++ mapAsDetails db.nextId cfg }) := by
    unfold AddConfig
    simp [hdet]
  set newrow : ConfigRow := { id := db.nextId, cls := cls, typ := typ } with hnewrow
  set db' : DB :=
    { nextId := db.nextId + 1,
      rows := db.rows ++ [newrow],
      details := db.details ++ mapAsDetails db.nextId cfg } with hdb'
  have hfind : (db'.rows.insertionSort rowLE).find? (fun r => r.id = db.nextId) =
      some newrow := by
    apply find?_unique
    · exact (List.perm_insertionSort rowLE db'.rows).mem_iff.mpr
        (List.mem_append_right _ (List.mem_singleton.mpr rfl))
    · simp
    · intro y hy hpy
      have hym : y ∈ db'.rows := (List.perm_insertionSort rowLE db'.rows).subset hy
      rcases List.mem_append.mp hym with hym | hym
      · have := hwfr y hym
        have hid : y.id = db.nextId := by simpa using hpy
        omega
      · exact List.mem_singleton.mp hym
  have hdetails : db'.details.filter (fun d => d.configID = db.nextId) =
      mapAsDetails db.nextId cfg := by
    rw [show db'.details = db.details ++ mapAsDetails db.nextId cfg from rfl,
      List.filter_append, filter_mapAsDetails_eq]
    have : db.details.filter (fun d => d.configID = db.nextId) = [] := by
      rw [List.filter_eq_nil_iff]
      intro d hd
      have := hwfd d hd
      simp only [decide_eq_true_eq]
      omega
    rw [this, List.nil_append]
  have hmap : Config.detailsAsMap (preload db' newrow) = cfg := by
    unfold Config.detailsAsMap
    show List.foldl (fun m det => insertKV m det.key det.value) []
        ((preload db' newrow).details) = cfg
    have : (preload db' newrow).details = mapAsDetails db.nextId cfg := by
      unfold preload
      simpa using hdetails
    rw [this, foldl_insertKV_fresh db.nextId cfg [] (by intro q hq; cases hq) hnodup,
      List.nil_append]
  rw [hadd]
  refine ⟨rfl, preload db' newrow, ?_, rfl, rfl, ?_, ?_⟩
  · unfold ConfigByID
    rw [hfind]
  · unfold Config.toNamed
    rw [hmap]
    rfl
  · unfold Config.toTyped
    rw [hmap]
    rfl

/-- Witness for C6 on the empty store: add a vehicle of type "tesla"
with attribute map consisting of the pair k-v. -/
theorem C6_witness :
    (AddConfig { nextId := 1, rows := [], details := [] } .Vehicle "tesla" [("k", "v")]).1.2 =
      .ok () ∧
    ∃ c,
      ConfigByID
        (AddConfig { nextId := 1, rows := [], details := [] } .Vehicle "tesla"
          [("k", "v")]).2
        (AddConfig { nextId := 1, rows := [], details := [] } .Vehicle "tesla"
          [("k", "v")]).1.1 = .ok c ∧
      c.typ = "tesla" ∧ c.cls = .Vehicle ∧
      c.toNamed =
        { name :=
            NameForID
              (AddConfig { nextId := 1, rows := [], details := [] } .Vehicle "tesla"
                [("k", "v")]).1.1,
          typ := "tesla", other := [("k", "v")] } ∧
      c.toTyped = { typ := "tesla", other := [("k", "v")] } :=
  C6_add_get_roundtrip { nextId := 1, rows := [], details := [] } .Vehicle "tesla"
    [("k", "v")] (by intro r hr; cases hr) (by intro d hd; cases hd) (by decide) (by decide)

/-- C10: a successful `update` replaces exactly the attribute rows of
the target descriptor: the auto-increment counter and all descriptor
rows (id, class, type) are unchanged, attribute rows of every other id
are unchanged, and the target's attribute rows become exactly the
supplied map. -/
theorem C10_update_frame (db : DB) (cls : DeviceClass) (id : Nat) (cfg : Other)
    (h : (UpdateConfig db cls id cfg).1 = .ok ()) :
    (UpdateConfig db cls id cfg).2.nextId = db.nextId ∧
    (UpdateConfig db cls id cfg).2.rows = db.rows ∧
    (UpdateConfig db cls id cfg).2.details.filter (fun d => d.configID ≠ id) =
      db.details.filter (fun d => d.configID ≠ id) ∧
    (UpdateConfig db cls id cfg).2.details.filter (fun d => d.configID = id) =
      mapAsDetails id cfg := by
  cases hf : db.rows.find? (fun r => r.cls = cls && r.id = id) with
  | none =>
    rw [UpdateConfig, hf] at h
    exact absurd h (by simp)
  | some r =>
    by_cases hemp : (mapAsDetails id cfg).isEmpty
    · rw [UpdateConfig, hf] at h
      simp [hemp] at h
    · have hemp' : (mapAsDetails id cfg).isEmpty = false := by
        cases hval : (mapAsDetails id cfg).isEmpty
        · rfl
        · exact absurd hval hemp
      have hok : UpdateConfig db cls id cfg =
          (.ok (),
           { db with
             details := db.details.filter (fun d => d.configID ≠ id) ++
               mapAsDetails id cfg }) := by
        rw [UpdateConfig, hf]
        simp [hemp']
      rw [hok]
      refine ⟨rfl, rfl, ?_, ?_⟩
      · show (db.details.filter (fun d => d.configID ≠ id) ++
            mapAsDetails id cfg).filter (fun d => d.configID ≠ id) =
            db.details.filter (fun d => d.configID ≠ id)
        rw [List.filter_append, filter_mapAsDetails_ne, List.append_nil,
          List.filter_eq_self]
        intro d hd
        exact (List.mem_filter.mp hd).2
      · show (db.details.filter (fun d => d.configID ≠ id) ++
            mapAsDetails id cfg).filter (fun d => d.configID = id) =
            mapAsDetails id cfg
        rw [List.filter_append, filter_mapAsDetails_eq]
        have hnil : (db.details.filter (fun d => d.configID ≠ id)).filter
            (fun d => d.configID = id) = [] := by
          rw [List.filter_eq_nil_iff]
          intro d hd
          have hne' := List.of_mem_filter hd
          simp only [decide_eq_true_eq] at hne' ⊢
          omega
        rw [hnil, List.nil_append]

/-- Witness for C10: update descriptor 1 of a two-descriptor store
with a fresh attribute map. -/
theorem C10_witness :
    (UpdateConfig
        { nextId := 3,
          rows := [{ id := 1, cls := .Meter, typ := "t" },
                   { id := 2, cls := .Vehicle, typ := "u" }],
          details := [{ configID := 1, key := "a", value := "x" },
                      { configID := 2, key := "b", value := "y" }] }
        .Meter 1 [("c", "z")]).1 = .ok () ∧
    (UpdateConfig
        { nextId := 3,
          rows := [{ id := 1, cls := .Meter, typ := "t" },
                   { id := 2, cls := .Vehicle, typ := "u" }],
          details := [{ configID := 1, key := "a", value := "x" },
                      { configID := 2, key := "b", value := "y" }] }
        .Meter 1 [("c", "z")]).2.rows =
      [{ id := 1, cls := .Meter, typ := "t" }, { id := 2, cls := .Vehicle, typ := "u" }] ∧
    (UpdateConfig
        { nextId := 3,
          rows := [{ id := 1, cls := .Meter, typ := "t" },
                   { id := 2, cls := .Vehicle, typ := "u" }],
          details := [{ configID := 1, key := "a", value := "x" },
                      { configID := 2, key := "b", value := "y" }] }
        .Meter 1 [("c", "z")]).2.details.filter (fun d => d.configID = 1) =
      mapAsDetails 1 [("c", "z")] := by
  have h := C10_update_frame
    { nextId := 3,
      rows := [{ id := 1, cls := .Meter, typ := "t" },
               { id := 2, cls := .Vehicle, typ := "u" }],
      details := [{ configID := 1, key := "a", value := "x" },
                  { configID := 2, key := "b", value := "y" }] }
    .Meter 1 [("c", "z")] (by decide)
  exact ⟨by decide, h.2.1, h.2.2.2⟩

/-! ## Sequencer lemmas and the tariff claims -/

/-- The empty store at process start. -/
def emptyDB : DB := { nextId := 1, rows := [], details := [] }

theorem configureDevices_ok {M C : Type} (nm : String → Other → Except String M)
    (nc : String → Other → Except String C)
    (nv : String → Other → Except VehicleErr VehicleInst)
    (db : DB) (conf : globalConfig M C)
    (h : (configureDevices nm nc nv db conf).1 = .ok ()) :
    ∃ regs, configureDevices nm nc nv db conf =
      (.ok (), regs, [Stage.Meters, Stage.Chargers, Stage.Vehicles]) := by
  unfold configureDevices at h ⊢
  cases hm : configureMeters nm db conf.meters [] with
  | mk rm regM =>
    rw [hm] at h
    cases rm with
    | error e => simp at h
    | ok u =>
      cases hc : configureChargers nc db conf.chargers [] with
      | mk rc rest =>
        rw [hc] at h
        cases rc with
        | error e => simp at h
        | ok u2 =>
          cases hv : configureVehicles nv db conf.vehicles [] with
          | mk rv restv =>
            rw [hv] at h
            cases rv with
            | error e => simp at h
            | ok u3 => exact ⟨_, rfl⟩

/-- C4: a non-empty currency string that the ISO currency table cannot
parse is fatal to the Tariffs stage — `configureTariffs` aborts with
the `MustParseISO` panic rather than returning a bundle — and a
bootstrap whose earlier stages succeed aborts there: the surfaced
outcome is that error and the Site stage never starts. -/
theorem C4_bad_currency {M C : Type} (parseISO : String → Option String)
    (newTariff : String → Other → Except String Tariff)
    (newMeter : String → Other → Except String M)
    (newCharger : String → Other → Except String C)
    (newVehicle : String → Other → Except VehicleErr VehicleInst)
    (newLoadpoint : LpConf → Except String Unit)
    (newSite : Other → List Unit → List VehicleInst → Tariffs → Except String Unit)
    (db : DB) (conf : globalConfig M C) (vlp : Option (List LpConf))
    (hne : conf.tariffs.currency ≠ "")
    (hbad : parseISO conf.tariffs.currency = none)
    (hdev : (configureDevices newMeter newCharger newVehicle db conf).1 = .ok ())
    (hlp : ∃ lps, configureLoadpoints newLoadpoint vlp = .ok lps) :
    configureTariffs parseISO newTariff conf.tariffs =
      .error (.panicked
        ("currency: tag is not a recognized currency: " ++ conf.tariffs.currency)) ∧
    configureSiteAndLoadpoints newMeter newCharger newVehicle newLoadpoint parseISO
        newTariff newSite db conf vlp =
      (.error (.panicked
        ("currency: tag is not a recognized currency: " ++ conf.tariffs.currency)),
       [Stage.Meters, Stage.Chargers, Stage.Vehicles, Stage.Loadpoints, Stage.Tariffs]) ∧
    Stage.Site ∉ (configureSiteAndLoadpoints newMeter newCharger newVehicle newLoadpoint
        parseISO newTariff newSite db conf vlp).2 := by
  have hT : configureTariffs parseISO newTariff conf.tariffs =
      .error (.panicked
        ("currency: tag is not a recognized currency: " ++ conf.tariffs.currency)) := by
    unfold configureTariffs
    rw [if_neg hne, hbad]
  obtain ⟨lps, hlps⟩ := hlp
  obtain ⟨regs, heq⟩ := configureDevices_ok newMeter newCharger newVehicle db conf hdev
  have hseq : configureSiteAndLoadpoints newMeter newCharger newVehicle newLoadpoint
      parseISO newTariff newSite db conf vlp =
      (.error (.panicked
        ("currency: tag is not a recognized currency: " ++ conf.tariffs.currency)),
       [Stage.Meters, Stage.Chargers, Stage.Vehicles, Stage.Loadpoints, Stage.Tariffs]) := by
    unfold configureSiteAndLoadpoints
    rw [heq, hlps, hT]
    rfl
  refine ⟨hT, hseq, ?_⟩
  rw [hseq]
  show Stage.Site ∉ [Stage.Meters, Stage.Chargers, Stage.Vehicles, Stage.Loadpoints,
    Stage.Tariffs]
  decide

/-- Witness for C4: unparseable currency "XXA" with every other stage
healthy on the empty store. -/
theorem C4_witness :
    configureTariffs (fun _ => none) (fun _ _ => .error "no tariff")
        { currency := "XXA", grid := { typ := "", other := [] },
          feedIn := { typ := "", other := [] }, co2 := { typ := "", other := [] },
          planner := { typ := "", other := [] } } =
      .error (.panicked ("currency: tag is not a recognized currency: " ++ "XXA")) ∧
    configureSiteAndLoadpoints (M := Unit) (C := Unit) (fun _ _ => .ok ())
        (fun _ _ => .ok ())
        (fun _ _ => .ok { title := "t", opError := none, auth := none })
        (fun _ => .ok ()) (fun _ => none) (fun _ _ => .error "no tariff")
        (fun _ _ _ _ => .ok ()) emptyDB
        { meters := [], chargers := [], vehicles := [],
          tariffs :=
            { currency := "XXA", grid := { typ := "", other := [] },
              feedIn := { typ := "", other := [] }, co2 := { typ := "", other := [] },
              planner := { typ := "", other := [] } },
          site := [], loadpoints := [] }
        (some [[("x", "1")]]) =
      (.error (.panicked ("currency: tag is not a recognized currency: " ++ "XXA")),
       [Stage.Meters, Stage.Chargers, Stage.Vehicles, Stage.Loadpoints, Stage.Tariffs]) ∧
    Stage.Site ∉ (configureSiteAndLoadpoints (M := Unit) (C := Unit) (fun _ _ => .ok ())
        (fun _ _ => .ok ())
        (fun _ _ => .ok { title := "t", opError := none, auth := none })
        (fun _ => .ok ()) (fun _ => none) (fun _ _ => .error "no tariff")
        (fun _ _ _ _ => .ok ()) emptyDB
        { meters := [], chargers := [], vehicles := [],
          tariffs :=
            { currency := "XXA", grid := { typ := "", other := [] },
              feedIn := { typ := "", other := [] }, co2 := { typ := "", other := [] },
              planner := { typ := "", other := [] } },
          site := [], loadpoints := [] }
        (some [[("x", "1")]])).2 :=
  C4_bad_currency (fun _ => none) (fun _ _ => .error "no tariff") (fun _ _ => .ok ())
    (fun _ _ => .ok ()) (fun _ _ => .ok { title := "t", opError := none, auth := none })
    (fun _ => .ok ()) (fun _ _ _ _ => .ok ()) emptyDB
    { meters := [], chargers := [], vehicles := [],
      tariffs :=
        { currency := "XXA", grid := { typ := "", other := [] },
          feedIn := { typ := "", other := [] }, co2 := { typ := "", other := [] },
          planner := { typ := "", other := [] } },
      site := [], loadpoints := [] }
    (some [[("x", "1")]]) (by decide) rfl (by decide) ⟨[()], rfl⟩

/-- C8: with an absent or empty loadpoint list the sequencer aborts at
the Loadpoints stage with the "missing loadpoints" error, wrapped with
stage context, and neither the Tariffs stage nor the Site stage ever
starts. -/
theorem C8_missing_loadpoints {M C : Type} (newMeter : String → Other → Except String M)
    (newCharger : String → Other → Except String C)
    (newVehicle : String → Other → Except VehicleErr VehicleInst)
    (newLoadpoint : LpConf → Except String Unit)
    (parseISO : String → Option String)
    (newTariff : String → Other → Except String Tariff)
    (newSite : Other → List Unit → List VehicleInst → Tariffs → Except String Unit)
    (db : DB) (conf : globalConfig M C) (vlp : Option (List LpConf))
    (hvlp : vlp = none ∨ vlp = some [])
    (hdev : (configureDevices newMeter newCharger newVehicle db conf).1 = .ok ()) :
    configureSiteAndLoadpoints newMeter newCharger newVehicle newLoadpoint parseISO
        newTariff newSite db conf vlp =
      (.error (.fail ("failed configuring loadpoints: " ++ "missing loadpoints")),
       [Stage.Meters, Stage.Chargers, Stage.Vehicles, Stage.Loadpoints]) ∧
    Stage.Tariffs ∉ (configureSiteAndLoadpoints newMeter newCharger newVehicle
        newLoadpoint parseISO newTariff newSite db conf vlp).2 ∧
    Stage.Site ∉ (configureSiteAndLoadpoints newMeter newCharger newVehicle
        newLoadpoint parseISO newTariff newSite db conf vlp).2 := by
  have hlp : configureLoadpoints newLoadpoint vlp = .error "missing loadpoints" := by
    rcases hvlp with h | h <;> subst h <;> rfl
  obtain ⟨regs, heq⟩ := configureDevices_ok newMeter newCharger newVehicle db conf hdev
  have hseq : configureSiteAndLoadpoints newMeter newCharger newVehicle newLoadpoint
      parseISO newTariff newSite db conf vlp =
      (.error (.fail ("failed configuring loadpoints: " ++ "missing loadpoints")),
       [Stage.Meters, Stage.Chargers, Stage.Vehicles, Stage.Loadpoints]) := by
    unfold configureSiteAndLoadpoints
    rw [heq, hlp]
    rfl
  refine ⟨hseq, ?_, ?_⟩ <;> rw [hseq]
  · show Stage.Tariffs ∉ [Stage.Meters, Stage.Chargers, Stage.Vehicles, Stage.Loadpoints]
    decide
  · show Stage.Site ∉ [Stage.Meters, Stage.Chargers, Stage.Vehicles, Stage.Loadpoints]
    decide

/-- Witness for C8: empty device lists on the empty store, loadpoint
list absent from the settings tree. -/
theorem C8_witness :
    configureSiteAndLoadpoints (M := Unit) (C := Unit) (fun _ _ => .ok ())
        (fun _ _ => .ok ())
        (fun _ _ => .ok { title := "t", opError := none, auth := none })
        (fun _ => .ok ()) (fun s => some s) (fun _ _ => .error "no tariff")
        (fun _ _ _ _ => .ok ()) emptyDB
        { meters := [], chargers := [], vehicles := [],
          tariffs :=
            { currency := "", grid := { typ := "", other := [] },
              feedIn := { typ := "", other := [] }, co2 := { typ := "", other := [] },
              planner := { typ := "", other := [] } },
          site := [], loadpoints := [] }
        none =
      (.error (.fail ("failed configuring loadpoints: " ++ "missing loadpoints")),
       [Stage.Meters, Stage.Chargers, Stage.Vehicles, Stage.Loadpoints]) ∧
    Stage.Tariffs ∉ (configureSiteAndLoadpoints (M := Unit) (C := Unit) (fun _ _ => .ok ())
        (fun _ _ => .ok ())
        (fun _ _ => .ok { title := "t", opError := none, auth := none })
        (fun _ => .ok ()) (fun s => some s) (fun _ _ => .error "no tariff")
        (fun _ _ _ _ => .ok ()) emptyDB
        { meters := [], chargers := [], vehicles := [],
          tariffs :=
            { currency := "", grid := { typ := "", other := [] },
              feedIn := { typ := "", other := [] }, co2 := { typ := "", other := [] },
              planner := { typ := "", other := [] } },
          site := [], loadpoints := [] }
        none).2 ∧
    Stage.Site ∉ (configureSiteAndLoadpoints (M := Unit) (C := Unit) (fun _ _ => .ok ())
        (fun _ _ => .ok ())
        (fun _ _ => .ok { title := "t", opError := none, auth := none })
        (fun _ => .ok ()) (fun s => some s) (fun _ _ => .error "no tariff")
        (fun _ _ _ _ => .ok ()) emptyDB
        { meters := [], chargers := [], vehicles := [],
          tariffs :=
            { currency := "", grid := { typ := "", other := [] },
              feedIn := { typ := "", other := [] }, co2 := { typ := "", other := [] },
              planner := { typ := "", other := [] } },
          site := [], loadpoints := [] }
        none).2 :=
  C8_missing_loadpoints (fun _ _ => .ok ()) (fun _ _ => .ok ())
    (fun _ _ => .ok { title := "t", opError := none, auth := none })
    (fun _ => .ok ()) (fun s => some s) (fun _ _ => .error "no tariff")
    (fun _ _ _ _ => .ok ()) emptyDB
    { meters := [], chargers := [], vehicles := [],
      tariffs :=
        { currency := "", grid := { typ := "", other := [] },
          feedIn := { typ := "", other := [] }, co2 := { typ := "", other := [] },
          planner := { typ := "", other := [] } },
      site := [], loadpoints := [] }
    none (Or.inl rfl) (by decide)

/-! ## C3: tariff slot independence -/

/-- The tariff driver resolver used by the C3 scenario: type "fixed"
resolves to a price tariff, every other type fails construction. -/
def tariffScenarioOracle : String → Other → Except String Tariff :=
  fun typ _ => if typ = "fixed" then .ok { tariffType := .price } else .error "boom"

/-- The C3 scenario configuration: grid resolvable, feed-in failing,
co2 and planner unset, currency unset. -/
def tariffScenarioConf : tariffConfig :=
  { currency := "",
    grid := { typ := "fixed", other := [] },
    feedIn := { typ := "broken", other := [] },
    co2 := { typ := "", other := [] },
    planner := { typ := "", other := [] } }

/-- The global configuration of the C3 scenario bootstrap: no devices,
the scenario tariffs, one loadpoint supplied via the settings tree. -/
def scenarioGlobalConf : globalConfig Unit Unit :=
  { meters := [], chargers := [], vehicles := [], tariffs := tariffScenarioConf,
    site := [], loadpoints := [] }

/-- C3: with a parseable (or empty) currency the Tariffs stage always
succeeds, each of the four slots is resolved independently from its
own slot configuration alone — a slot construction error leaves
exactly that slot absent — and a planner slot resolving to a
carbon-intensity tariff emits exactly the non-fatal migration
warning.  In the concrete scenario where grid resolves and feed-in
fails, the bundle has grid present and feed-in absent and the
bootstrap proceeds to the Site stage. -/
theorem C3_tariff_slots (parseISO : String → Option String)
    (newTariff : String → Other → Except String Tariff) (conf : tariffConfig) (u : String)
    (hcur : (if conf.currency = "" then some "EUR" else parseISO conf.currency) = some u) :
    (∃ t ws, configureTariffs parseISO newTariff conf = .ok (t, ws) ∧
      t.currency = u ∧
      t.grid = (if conf.grid.typ = "" then none else
        match newTariff conf.grid.typ conf.grid.other with
        | .ok x => some x
        | .error _ => none) ∧
      t.feedIn = (if conf.feedIn.typ = "" then none else
        match newTariff conf.feedIn.typ conf.feedIn.other with
        | .ok x => some x
        | .error _ => none) ∧
      t.co2 = (if conf.co2.typ = "" then none else
        match newTariff conf.co2.typ conf.co2.other with
        | .ok x => some x
        | .error _ => none) ∧
      t.planner = (if conf.planner.typ = "" then none else
        match newTariff conf.planner.typ conf.planner.other with
        | .ok x => some x
        | .error _ => none) ∧
      ws = (if conf.planner.typ = "" then [] else
        match newTariff conf.planner.typ conf.planner.other with
        | .ok x => if x.tariffType = .co2 then [plannerCo2Warning] else []
        | .error _ => [])) ∧
    configureTariffs (fun _ => none) tariffScenarioOracle tariffScenarioConf =
      .ok ({ currency := "EUR", grid := some { tariffType := .price },
             feedIn := none, co2 := none, planner := none }, []) ∧
    (configureSiteAndLoadpoints (M := Unit) (C := Unit) (fun _ _ => .ok ())
        (fun _ _ => .ok ())
        (fun _ _ => .ok { title := "t", opError := none, auth := none })
        (fun _ => .ok ()) (fun _ => none) tariffScenarioOracle
        (fun _ _ _ _ => .ok ()) emptyDB scenarioGlobalConf
        (some [[("x", "1")]])).1 = .ok () ∧
    Stage.Site ∈ (configureSiteAndLoadpoints (M := Unit) (C := Unit) (fun _ _ => .ok ())
        (fun _ _ => .ok ())
        (fun _ _ => .ok { title := "t", opError := none, auth := none })
        (fun _ => .ok ()) (fun _ => none) tariffScenarioOracle
        (fun _ _ _ _ => .ok ()) emptyDB scenarioGlobalConf
        (some [[("x", "1")]])).2 := by
  refine ⟨?_, by decide, by decide, by decide⟩
  unfold configureTariffs
  rw [hcur]
  refine ⟨_, _, rfl, rfl, rfl, rfl, rfl, ?_, ?_⟩
  · by_cases hp : conf.planner.typ = ""
    · simp [NewTariffs, hp]
    · simp only [if_neg hp]
      cases hres : newTariff conf.planner.typ conf.planner.other <;>
        simp [NewTariffs, hres]
  · by_cases hp : conf.planner.typ = ""
    · simp [NewTariffs, hp]
    · simp only [if_neg hp]
      cases hres : newTariff conf.planner.typ conf.planner.other <;>
        simp [NewTariffs, hres]

/-- Witness for C3 at the scenario configuration: the currency
hypothesis holds and the stage succeeds with grid present and feed-in
absent. -/
theorem C3_witness :
    ((if tariffScenarioConf.currency = "" then some "EUR"
      else (fun _ => (none : Option String)) tariffScenarioConf.currency) = some "EUR") ∧
    ∃ t ws, configureTariffs (fun _ => none) tariffScenarioOracle tariffScenarioConf =
        .ok (t, ws) ∧ t.grid = some { tariffType := .price } ∧ t.feedIn = none :=
  ⟨by decide, by
    obtain ⟨⟨t, ws, hok, hc, hg, hf, _⟩, _⟩ :=
      C3_tariff_slots (fun _ => none) tariffScenarioOracle tariffScenarioConf "EUR"
        (by decide)
    refine ⟨t, ws, hok, ?_, ?_⟩
    · rw [hg]; decide
    · rw [hf]; decide⟩

/-! ## C9: capability router -/

/-- Specification-shaped description of the router output: walk the
vehicle list with a counter of capable vehicles seen so far; each
capable vehicle contributes one login/logout route pair under its
1-based id, one callback wiring and one lookup entry; an incapable
vehicle contributes nothing and does not advance the counter. -/
def authRouterSpec (baseURI baseAuthURI : String) (n : Nat) :
    List VehicleInst → AuthResult
  | [] => { routes := [], callbacks := [], lookup := [] }
  | v :: rest =>
    match v.auth with
    | none => authRouterSpec baseURI baseAuthURI n rest
    | some p =>
      let r := authRouterSpec baseURI baseAuthURI (n + 1) rest
      let basePath := "vehicles/" ++ toString (n + 1)
      { routes := ("/" ++ basePath ++ "/login", "login", p.tag) ::
          ("/" ++ basePath ++ "/logout", "logout", p.tag) :: r.routes,
        callbacks := (p.tag, baseURI, baseAuthURI ++ "/" ++ basePath ++ "/callback") ::
          r.callbacks,
        lookup := ("oauth/" ++ basePath, v.title) :: r.lookup }

theorem configureAuthLoop_eq (baseURI baseAuthURI : String) :
    ∀ (vs : List VehicleInst) (n : Nat) (acc : AuthResult),
      configureAuthLoop baseURI baseAuthURI vs n acc =
        { routes := acc.routes ++ (authRouterSpec baseURI baseAuthURI n vs).routes,
          callbacks :=
            acc.callbacks ++ (authRouterSpec baseURI baseAuthURI n vs).callbacks,
          lookup := acc.lookup ++ (authRouterSpec baseURI baseAuthURI n vs).lookup } := by
  intro vs
  induction vs with
  | nil => intro n acc; simp [configureAuthLoop, authRouterSpec]
  | cons v rest ih =>
    intro n acc
    cases hv : v.auth with
    | none => simp [configureAuthLoop, authRouterSpec, hv, ih]
    | some p => simp [configureAuthLoop, authRouterSpec, hv, ih]

theorem authRouterSpec_lengths (baseURI baseAuthURI : String) :
    ∀ (vs : List VehicleInst) (n : Nat),
      (authRouterSpec baseURI baseAuthURI n vs).lookup.length =
        (vs.filter (fun v => v.auth.isSome)).length ∧
      (authRouterSpec baseURI baseAuthURI n vs).routes.length =
        2 * (vs.filter (fun v => v.auth.isSome)).length := by
  intro vs
  induction vs with
  | nil => intro n; simp [authRouterSpec]
  | cons v rest ih =>
    intro n
    cases hv : v.auth with
    | none => simpa [authRouterSpec, hv, List.filter_cons] using ih n
    | some p =>
      have := ih (n + 1)
      simp [authRouterSpec, hv, List.filter_cons, this.1, this.2]
      omega

/-- C9: the capability router scans the bound vehicles in registry
order and produces exactly the spec-shaped output — 1-based ids
sequential over capable vehicles only, one login/logout route pair and
one lookup entry per capable vehicle, incapable vehicles skipped
without error and without consuming an id.  The lookup and route
counts match the number of capable vehicles, and in the two-vehicle
scenario with only the first capable exactly one route pair is
registered under index 1 with a single lookup entry. -/
theorem C9_capability_router (conf : networkConfig) (vehicles : List VehicleInst) :
    configureAuth conf vehicles =
      authRouterSpec conf.URI (conf.URI ++ "/oauth") 0 vehicles ∧
    (configureAuth conf vehicles).lookup.length =
      (vehicles.filter (fun v => v.auth.isSome)).length ∧
    (configureAuth conf vehicles).routes.length =
      2 * (vehicles.filter (fun v => v.auth.isSome)).length ∧
    configureAuth { schema := "http", host := "evcc.local", port := 7070 }
        [{ title := "A", opError := none, auth := some { tag := 7 } },
         { title := "B", opError := none, auth := none }] =
      { routes := [("/vehicles/1/login", "login", 7),
                   ("/vehicles/1/logout", "logout", 7)],
        callbacks := [(7, "http://evcc.local:7070",
          "http://evcc.local:7070/oauth/vehicles/1/callback")],
        lookup := [("oauth/vehicles/1", "A")] } := by
  have hmain : configureAuth conf vehicles =
      authRouterSpec conf.URI (conf.URI ++ "/oauth") 0 vehicles := by
    unfold configureAuth
    rw [configureAuthLoop_eq]
    simp
  refine ⟨hmain, ?_, ?_, by decide⟩
  · rw [hmain]
    exact (authRouterSpec_lengths conf.URI (conf.URI ++ "/oauth") vehicles 0).1
  · rw [hmain]
    exact (authRouterSpec_lengths conf.URI (conf.URI ++ "/oauth") vehicles 0).2

/-! ## C2: vehicle construction failures -/

/-- The instance a vehicle construction task binds when it does not
hard-fail: the resolver's instance, or the degraded stand-in on a
non-config error, title-normalized in both cases.  (The config-error
branch never binds; its value here is arbitrary.) -/
def vehicleOutcome (newVehicle : String → Other → Except VehicleErr VehicleInst)
    (cc : Named) : VehicleInst :=
  match newVehicle cc.typ cc.other with
  | .error (.configError m) => wrapperNew cc.name cc.other m
  | .error (.otherError m) => ensureTitle cc.name (wrapperNew cc.name cc.other m)
  | .ok inst => ensureTitle cc.name inst

theorem vehicleTask_ok (newVehicle : String → Other → Except VehicleErr VehicleInst)
    (cc : Named)
    (h : ∀ m, newVehicle cc.typ cc.other ≠ .error (.configError m)) :
    vehicleTask newVehicle cc = .ok (vehicleOutcome newVehicle cc) := by
  unfold vehicleTask vehicleOutcome
  cases hres : newVehicle cc.typ cc.other with
  | error e =>
    cases e with
    | configError m => exact absurd hres (h m)
    | otherError m => rfl
  | ok inst => rfl

theorem vehicleJoin_ok (newVehicle : String → Other → Except VehicleErr VehicleInst) :
    ∀ devs : List (Device VehicleInst),
      (∀ d ∈ devs, ∀ m,
        newVehicle d.config.typ d.config.other ≠ .error (.configError m)) →
      vehicleJoin newVehicle devs =
        .ok (devs.map (fun d => { d with inst := some (vehicleOutcome newVehicle d.config) })) := by
  intro devs
  induction devs with
  | nil => intro _; rfl
  | cons dev rest ih =>
    intro h
    show vehicleJoin newVehicle (dev :: rest) = _
    unfold vehicleJoin
    rw [vehicleTask_ok newVehicle dev.config (h dev (List.mem_cons_self _ _)),
      ih (fun d hd m => h d (List.mem_cons_of_mem _ hd) m)]
    rfl

theorem spawnLoop_ok {T : Type} (clsName : String) :
    ∀ (devs : List (Device T)) (i : Nat) (sp : List Nat),
      (∀ d ∈ devs, d.config.name ≠ "") →
      spawnLoop clsName devs i sp = (.ok (), sp ++ List.range' i devs.length) := by
  intro devs
  induction devs with
  | nil => intro i sp _; simp [spawnLoop]
  | cons dev rest ih =>
    intro i sp h
    have hd : dev.config.name ≠ "" := h dev (List.mem_cons_self _ _)
    unfold spawnLoop
    rw [if_neg (by simpa using hd),
      ih (i + 1) (sp ++ [i]) (fun d hd' => h d (List.mem_cons_of_mem _ hd'))]
    simp [List.range'_succ]

theorem registerAll_ok {T : Type} :
    ∀ (l reg : List (Device T)),
      (((reg ++ l).map (fun d => d.config.name)).Nodup) →
      registerAll l reg = (.ok (), reg ++ l) := by
  intro l
  induction l with
  | nil => intro reg h; simp [registerAll]
  | cons dev rest ih =>
    intro reg h
    have h' : ((reg.map (fun d => d.config.name)) ++
        (dev.config.name :: rest.map (fun d => d.config.name))).Nodup := by
      simpa [List.map_append] using h
    have hdisj := (List.nodup_append.mp h').2.2
    have hnotin : ∀ d ∈ reg, ¬(d.config.name = dev.config.name) := by
      intro d hd heq
      exact hdisj (List.mem_map_of_mem _ hd) (by rw [heq]; exact List.mem_cons_self _ _)
    have hadd : registryAdd reg dev = .ok (reg ++ [dev]) := by
      unfold registryAdd
      rw [if_neg]
      simp only [List.any_eq_true, not_exists]
      intro d
      intro hcon
      rcases hcon with ⟨hd, hname⟩
      exact hnotin d hd (by simpa using hname)
    unfold registerAll
    rw [hadd]
    show registerAll rest (reg ++ [dev]) = (Except.ok (), reg ++ dev :: rest)
    rw [ih (reg ++ [dev]) (by simpa [List.append_assoc] using h)]
    simp

/-- C2: counterexample — a vehicle whose driver construction fails
with a `util.ConfigError` IS propagated as a hard error: the stage
aborts and nothing is registered for that descriptor, so not every
construction failure is replaced by a degraded stand-in. -/
theorem C2_counterexample :
    (configureVehicles (fun _ _ => .error (.configError "invalid"))
        emptyDB [{ name := "v1", typ := "broken", other := [] }] []).1 =
      .error "cannot create vehicle 'v1': invalid" ∧
    (configureVehicles (fun _ _ => .error (.configError "invalid"))
        emptyDB [{ name := "v1", typ := "broken", other := [] }] []).2.2 = [] :=
  ⟨by decide, by decide⟩

/-- C2 amended: a vehicle descriptor whose driver construction fails
with a non-config error is not propagated as a hard error: the stage
succeeds, a degraded stand-in reporting the original construction
error is bound in its place, after binding its title is the
title-cased descriptor name, and the class registry contains a bound
handle for that name.  (A `util.ConfigError` failure, by contrast, is
a hard error.) -/
theorem C2_vehicle_standin (newVehicle : String → Other → Except VehicleErr VehicleInst)
    (db : DB) (static : List Named) (k : Nat) (dev : Device VehicleInst) (e : String)
    (hk : (devices static (ConfigurationsByClass db .Vehicle)).get? k = some dev)
    (hname : ∀ d ∈ (devices static (ConfigurationsByClass db .Vehicle) :
      List (Device VehicleInst)), d.config.name ≠ "")
    (herr : newVehicle dev.config.typ dev.config.other = .error (.otherError e))
    (hnocfg : ∀ d ∈ (devices static (ConfigurationsByClass db .Vehicle) :
      List (Device VehicleInst)), ∀ m,
      newVehicle d.config.typ d.config.other ≠ .error (.configError m))
    (hnodup : ((devices static (ConfigurationsByClass db .Vehicle) :
      List (Device VehicleInst)).map (fun d => d.config.name)).Nodup) :
    (configureVehicles newVehicle db static []).1 = .ok () ∧
    ∃ d' ∈ (configureVehicles newVehicle db static []).2.2,
      d'.config.name = dev.config.name ∧
      d'.inst = some { title := stringsTitle dev.config.name, opError := some e,
                       auth := none } := by
  have hspawn := spawnLoop_ok "vehicle"
    (devices static (ConfigurationsByClass db .Vehicle)) 0 [] hname
  have hjoin := vehicleJoin_ok newVehicle
    (devices static (ConfigurationsByClass db .Vehicle)) hnocfg
  have hreg := registerAll_ok
    ((devices static (ConfigurationsByClass db .Vehicle)).map
      (fun d => { d with inst := some (vehicleOutcome newVehicle d.config) })) []
    (by simpa [List.map_map, Function.comp] using hnodup)
  have hcv : configureVehicles newVehicle db static [] =
      (.ok (), List.range' 0 (devices static (ConfigurationsByClass db .Vehicle) :
         List (Device VehicleInst)).length,
       (devices static (ConfigurationsByClass db .Vehicle) :
         List (Device VehicleInst)).map
         (fun d => { d with inst := some (vehicleOutcome newVehicle d.config) })) := by
    unfold configureVehicles
    simp only [hspawn, hjoin, hreg, List.nil_append]
  refine ⟨by rw [hcv], ?_⟩
  refine ⟨{ dev with inst := some (vehicleOutcome newVehicle dev.config) }, ?_, rfl, ?_⟩
  · rw [hcv]
    exact List.mem_map_of_mem _ (List.get?_mem hk)
  · show some (vehicleOutcome newVehicle dev.config) = _
    unfold vehicleOutcome
    rw [herr]
    simp [ensureTitle, wrapperNew]

/-- Witness for C2 amended: one static vehicle "my car" whose driver
fails with a non-config error; the stage succeeds and the registry
binds a stand-in titled "My Car" reporting the error. -/
theorem C2_witness :
    (configureVehicles (fun _ _ => .error (.otherError "offline"))
        emptyDB [{ name := "my car", typ := "x", other := [] }] []).1 = .ok () ∧
    ∃ d' ∈ (configureVehicles (fun _ _ => .error (.otherError "offline"))
        emptyDB [{ name := "my car", typ := "x", other := [] }] []).2.2,
      d'.config.name = "my car" ∧
      d'.inst = some { title := "My Car", opError := some "offline", auth := none } := by
  have h := C2_vehicle_standin (fun _ _ => .error (.otherError "offline")) emptyDB
    [{ name := "my car", typ := "x", other := [] }] 0
    { config := { name := "my car", typ := "x", other := [] }, inst := none } "offline"
    (by decide) (by decide) rfl
    (by intro d hd m hcon; simp at hcon) (by decide)
  obtain ⟨h1, d', hmem, hname', hinst⟩ := h
  refine ⟨h1, d', hmem, hname', ?_⟩
  rw [hinst]
  decide

/-! ## C1: blank descriptor names -/

theorem spawnLoop_blank {T : Type} (clsName : String) :
    ∀ (k : Nat) (devs : List (Device T)) (i : Nat) (sp : List Nat) (dev : Device T),
      devs.get? k = some dev → dev.config.name = "" →
      (∀ j, j < k → ∀ d, devs.get? j = some d → d.config.name ≠ "") →
      spawnLoop clsName devs i sp =
        (.error ("cannot create " ++ clsName ++ " " ++ toString (i + k + 1) ++
          ": missing name"), sp ++ List.range' i k) := by
  intro k
  induction k with
  | zero =>
    intro devs i sp dev hk hblank hpre
    cases devs with
    | nil => cases hk
    | cons d rest =>
      have hd : d = dev := by simpa using hk
      subst hd
      unfold spawnLoop
      rw [if_pos (by simpa using hblank)]
      simp
  | succ k ih =>
    intro devs i sp dev hk hblank hpre
    cases devs with
    | nil => cases hk
    | cons d rest =>
      have hdname : d.config.name ≠ "" := hpre 0 (Nat.succ_pos k) d rfl
      unfold spawnLoop
      rw [if_neg (by simpa using hdname),
        ih rest (i + 1) (sp ++ [i]) dev (by simpa using hk) hblank
          (fun j hj d' hd' => hpre (j + 1) (Nat.succ_lt_succ hj) d' (by simpa using hd'))]
      have harith : i + 1 + k + 1 = i + (k + 1) + 1 := by omega
      rw [harith]
      simp [List.range'_succ]

theorem configureMetersLoop_blank {M : Type} (nm : String → Other → Except String M) :
    ∀ (k : Nat) (devs : List (Device M)) (i : Nat) (reg : List (Device M)) (dev : Device M),
      devs.get? k = some dev → dev.config.name = "" →
      (∀ j, j < k → ∀ d, devs.get? j = some d → d.config.name ≠ "") →
      (∀ j, j < k → ∀ d, devs.get? j = some d →
        ∃ inst, nm d.config.typ d.config.other = .ok inst) →
      (((reg ++ devs.take k).map (fun d => d.config.name)).Nodup) →
      ∃ built, configureMetersLoop nm devs i reg =
        (.error ("cannot create meter " ++ toString (i + k + 1) ++ ": missing name"),
         reg ++ built) ∧ built.length = k := by
  intro k
  induction k with
  | zero =>
    intro devs i reg dev hk hblank hpre hok hnodup
    cases devs with
    | nil => cases hk
    | cons d rest =>
      have hd : d = dev := by simpa using hk
      subst hd
      refine ⟨[], ?_, rfl⟩
      unfold configureMetersLoop
      rw [if_pos (by simpa using hblank)]
      simp
  | succ k ih =>
    intro devs i reg dev hk hblank hpre hok hnodup
    cases devs with
    | nil => cases hk
    | cons d rest =>
      have hdname : d.config.name ≠ "" := hpre 0 (Nat.succ_pos k) d rfl
      obtain ⟨inst, hinst⟩ := hok 0 (Nat.succ_pos k) d rfl
      have hnodup' : ((reg ++ d :: rest.take k).map (fun x => x.config.name)).Nodup := by
        simpa using hnodup
      have hnames : ((reg.map (fun x => x.config.name)) ++
          (d.config.name :: (rest.take k).map (fun x => x.config.name))).Nodup := by
        simpa [List.map_append] using hnodup'
      have hdisj := (List.nodup_append.mp hnames).2.2
      have hcond : ¬(reg.any (fun q => q.config.name =
          ({ d with inst := some inst } : Device M).config.name) = true) := by
        intro hcon
        rw [List.any_eq_true] at hcon
        obtain ⟨x, hx, hxname⟩ := hcon
        have hxn : x.config.name = d.config.name := by simpa using hxname
        exact hdisj (List.mem_map_of_mem _ hx)
          (by rw [← hxn]; exact List.mem_cons_self _ _)
      have hadd : registryAdd reg { d with inst := some inst } =
          .ok (reg ++ [{ d with inst := some inst }]) := by
        unfold registryAdd
        rw [if_neg hcond]
      obtain ⟨built, heq, hlen⟩ := ih rest (i + 1)
        (reg ++ [{ d with inst := some inst }]) dev
        (by simpa using hk) hblank
        (fun j hj d' hd' => hpre (j + 1) (Nat.succ_lt_succ hj) d' (by simpa using hd'))
        (fun j hj d' hd' => hok (j + 1) (Nat.succ_lt_succ hj) d' (by simpa using hd'))
        (by simpa [List.map_append, List.append_assoc] using hnodup')
      refine ⟨{ d with inst := some inst } :: built, ?_, by simpa using hlen⟩
      simp only [configureMetersLoop]
      rw [if_neg (by simpa using hdname)]
      simp only [hinst, hadd, heq]
      have harith : i + 1 + k + 1 = i + (k + 1) + 1 := by omega
      rw [harith]
      simp [List.append_assoc]

/-- C1: counterexample — meters register as the sequential loop
advances, so with a valid meter at position 0 and a blank name at
position 1 the error cites position 2 as claimed, but the registry
already contains the bound instance of the first meter: registration
is NOT all-or-nothing for the meter class. -/
theorem C1_counterexample :
    configureMeters (fun _ _ => .ok ()) emptyDB
        [{ name := "m1", typ := "t", other := [] },
         { name := "", typ := "t", other := [] }] [] =
      (.error "cannot create meter 2: missing name",
       [{ config := { name := "m1", typ := "t", other := [] }, inst := some () }]) ∧
    (configureMeters (fun _ _ => .ok ()) emptyDB
        [{ name := "m1", typ := "t", other := [] },
         { name := "", typ := "t", other := [] }] []).2 ≠ [] :=
  ⟨by decide, by decide⟩

/-- C1 amended: a blank name at 0-based position k of the merged
collection fails the class with an error citing the 1-based position
k+1 in all three classes.  For chargers and vehicles the class
registry is untouched (registration only starts after all
construction tasks join), but the construction tasks of all k earlier
descriptors have already been spawned when the error is raised; for
meters, the loop is sequential and interleaves registration, so the k
earlier descriptors (assumed well-named, constructible and without
name collisions) are already constructed and registered when the
error is raised — all-or-nothing does not hold for meters. -/
theorem C1_blank_name :
    (∀ (M : Type) (nm : String → Other → Except String M) (db : DB)
        (static : List Named) (k : Nat) (dev : Device M),
        (devices static (ConfigurationsByClass db .Meter)).get? k = some dev →
        dev.config.name = "" →
        (∀ j, j < k → ∀ d, (devices static (ConfigurationsByClass db .Meter) :
          List (Device M)).get? j = some d → d.config.name ≠ "") →
        (∀ j, j < k → ∀ d, (devices static (ConfigurationsByClass db .Meter) :
          List (Device M)).get? j = some d →
          ∃ inst, nm d.config.typ d.config.other = .ok inst) →
        ((((devices static (ConfigurationsByClass db .Meter) :
          List (Device M)).take k).map (fun d => d.config.name)).Nodup) →
        ∃ built, configureMeters nm db static [] =
          (.error ("cannot create meter " ++ toString (k + 1) ++ ": missing name"),
           built) ∧ built.length = k) ∧
    (∀ (C : Type) (nc : String → Other → Except String C) (db : DB)
        (static : List Named) (reg : List (Device C)) (k : Nat) (dev : Device C),
        (devices static (ConfigurationsByClass db .Charger)).get? k = some dev →
        dev.config.name = "" →
        (∀ j, j < k → ∀ d, (devices static (ConfigurationsByClass db .Charger) :
          List (Device C)).get? j = some d → d.config.name ≠ "") →
        configureChargers nc db static reg =
          (.error ("cannot create charger " ++ toString (k + 1) ++ ": missing name"),
           List.range k, reg)) ∧
    (∀ (nv : String → Other → Except VehicleErr VehicleInst) (db : DB)
        (static : List Named) (reg : List (Device VehicleInst)) (k : Nat)
        (dev : Device VehicleInst),
        (devices static (ConfigurationsByClass db .Vehicle)).get? k = some dev →
        dev.config.name = "" →
        (∀ j, j < k → ∀ d, (devices static (ConfigurationsByClass db .Vehicle) :
          List (Device VehicleInst)).get? j = some d → d.config.name ≠ "") →
        configureVehicles nv db static reg =
          (.error ("cannot create vehicle " ++ toString (k + 1) ++ ": missing name"),
           List.range k, reg)) := by
  refine ⟨?_, ?_, ?_⟩
  · intro M nm db static k dev hk hblank hpre hok hnodup
    obtain ⟨built, heq, hlen⟩ := configureMetersLoop_blank nm k
      (devices static (ConfigurationsByClass db .Meter)) 0 [] dev hk hblank hpre hok
      (by simpa using hnodup)
    refine ⟨built, ?_, hlen⟩
    unfold configureMeters
    rw [heq]
    simp
  · intro C nc db static reg k dev hk hblank hpre
    have hsp := spawnLoop_blank "charger" k
      (devices static (ConfigurationsByClass db .Charger)) 0 [] dev hk hblank hpre
    unfold configureChargers
    simp only [hsp, List.nil_append, Nat.zero_add]
    rw [List.range_eq_range']
    rfl
  · intro nv db static reg k dev hk hblank hpre
    have hsp := spawnLoop_blank "vehicle" k
      (devices static (ConfigurationsByClass db .Vehicle)) 0 [] dev hk hblank hpre
    unfold configureVehicles
    simp only [hsp, List.nil_append, Nat.zero_add]
    rw [List.range_eq_range']
    rfl

/-- Witness for C1 amended at concrete two-descriptor collections with
the blank name at position 1 for each of the three classes. -/
theorem C1_witness :
    (∃ built, configureMeters (fun _ _ => .ok ()) emptyDB
        [{ name := "m1", typ := "t", other := [] },
         { name := "", typ := "t", other := [] }] [] =
      (.error ("cannot create meter " ++ toString (1 + 1) ++ ": missing name"),
       built) ∧ built.length = 1) ∧
    configureChargers (fun _ _ => (.ok () : Except String Unit)) emptyDB
        [{ name := "c1", typ := "t", other := [] },
         { name := "", typ := "t", other := [] }] [] =
      (.error ("cannot create charger " ++ toString (1 + 1) ++ ": missing name"),
       List.range 1, []) ∧
    configureVehicles (fun _ _ => .error (.otherError "x")) emptyDB
        [{ name := "v1", typ := "t", other := [] },
         { name := "", typ := "t", other := [] }] [] =
      (.error ("cannot create vehicle " ++ toString (1 + 1) ++ ": missing name"),
       List.range 1, []) := by
  refine ⟨?_, ?_, ?_⟩
  · exact C1_blank_name.1 Unit (fun _ _ => .ok ()) emptyDB
      [{ name := "m1", typ := "t", other := [] },
       { name := "", typ := "t", other := [] }] 1
      { config := { name := "", typ := "t", other := [] }, inst := none }
      (by decide) rfl
      (by
        intro j hj d hd
        have hj0 : j = 0 := by omega
        subst hj0
        rw [show (devices [{ name := "m1", typ := "t", other := [] },
            { name := "", typ := "t", other := [] }]
            (ConfigurationsByClass emptyDB DeviceClass.Meter) :
            List (Device Unit)).get? 0 =
            some { config := { name := "m1", typ := "t", other := [] }, inst := none }
          from by decide] at hd
        injection hd with hdd
        subst hdd
        decide)
      (by intro j hj d hd; exact ⟨(), rfl⟩)
      (by decide)
  · exact C1_blank_name.2.1 Unit (fun _ _ => .ok ()) emptyDB
      [{ name := "c1", typ := "t", other := [] },
       { name := "", typ := "t", other := [] }] [] 1
      { config := { name := "", typ := "t", other := [] }, inst := none }
      (by decide) rfl
      (by
        intro j hj d hd
        have hj0 : j = 0 := by omega
        subst hj0
        rw [show (devices [{ name := "c1", typ := "t", other := [] },
            { name := "", typ := "t", other := [] }]
            (ConfigurationsByClass emptyDB DeviceClass.Charger) :
            List (Device Unit)).get? 0 =
            some { config := { name := "c1", typ := "t", other := [] }, inst := none }
          from by decide] at hd
        injection hd with hdd
        subst hdd
        decide)
  · exact C1_blank_name.2.2 (fun _ _ => .error (.otherError "x")) emptyDB
      [{ name := "v1", typ := "t", other := [] },
       { name := "", typ := "t", other := [] }] [] 1
      { config := { name := "", typ := "t", other := [] }, inst := none }
      (by decide) rfl
      (by
        intro j hj d hd
        have hj0 : j = 0 := by omega
        subst hj0
        rw [show (devices [{ name := "v1", typ := "t", other := [] },
            { name := "", typ := "t", other := [] }]
            (ConfigurationsByClass emptyDB DeviceClass.Vehicle) :
            List (Device VehicleInst)).get? 0 =
            some { config := { name := "v1", typ := "t", other := [] }, inst := none }
          from by decide] at hd
        injection hd with hdd
        subst hdd
        decide)
